import Mathlib

/-!
Verification of the user-API server (`src/server.js`) of
`ygtechid-dev/backend-landingpage`.

The server is shallowly embedded: each Express route handler becomes a pure
Lean function from its inputs (database snapshot, request body, headers, and
the values the environment supplies at run time: timestamps, the bcrypt
digest, the random seed, the generated row id) to the pair of the new
database snapshot and the HTTP response.  MySQL rows are total functions
from the fixed column set of the `users` table to JSON-ish values;
`pool.execute` of the dynamically built UPDATE statement is modelled by
`executeUpdate`, which reproduces positional parameter binding and the
server's arity / unknown-column errors.  `bcrypt.compare` is an opaque
boolean test and is passed in as a function parameter `verify`.
-/

set_option autoImplicit false

namespace Server

/-- JSON-ish values as they appear in request bodies and MySQL rows.
`vUndefined` models the JavaScript `undefined` (absent JSON fields are instead
modelled by `Option`; `vUndefined` only matters for the `!== undefined` and
bind-parameter checks). -/
inductive Value where
  | vStr (s : String)
  | vInt (n : Int)
  | vNull
  | vUndefined
  deriving DecidableEq, Repr

/-- The columns of the `users` table, as used by `server.js`. -/
inductive Col where
  | id | first_name | last_name | email | password | type | company_id
  | subscription | lang | plan | avatar | created_by | is_active
  | is_login_enable | dark_mode | messenger_color | is_disable
  | last_login | created_at | updated_at
  deriving DecidableEq, Repr

/-- The SQL name of each column. -/
def Col.colName : Col → String
  | .id => "id"
  | .first_name => "first_name"
  | .last_name => "last_name"
  | .email => "email"
  | .password => "password"
  | .type => "type"
  | .company_id => "company_id"
  | .subscription => "subscription"
  | .lang => "lang"
  | .plan => "plan"
  | .avatar => "avatar"
  | .created_by => "created_by"
  | .is_active => "is_active"
  | .is_login_enable => "is_login_enable"
  | .dark_mode => "dark_mode"
  | .messenger_color => "messenger_color"
  | .is_disable => "is_disable"
  | .last_login => "last_login"
  | .created_at => "created_at"
  | .updated_at => "updated_at"

/-- All columns, in `SELECT *` order. -/
def allCols : List Col :=
  [.id, .first_name, .last_name, .email, .password, .type, .company_id,
   .subscription, .lang, .plan, .avatar, .created_by, .is_active,
   .is_login_enable, .dark_mode, .messenger_color, .is_disable,
   .last_login, .created_at, .updated_at]

/-- Column lookup by SQL name (MySQL resolves the column names that the
dynamically built UPDATE statement mentions; an unknown name is a statement
error). -/
def colOfName (k : String) : Option Col :=
  allCols.find? (fun c => decide (c.colName = k))

/-- A row of the `users` table. -/
abbrev Row := Col → Value

/-- The `users` table: the rows in insertion order. -/
abbrev Db := List Row

/-- Setting one column of a row. -/
def setCol (r : Row) (c : Col) (v : Value) : Row :=
  fun c2 => if c2 = c then v else r c2

/-- JavaScript truthiness of the values our model can produce. -/
def truthy : Value → Bool
  | .vStr s => decide (s ≠ "")
  | .vInt n => decide (n ≠ 0)
  | .vNull => false
  | .vUndefined => false

/-- `req.body.k` of a JSON body modelled as an association list with
distinct keys: `none` is JavaScript `undefined`. -/
def bodyLookup (body : List (String × Value)) (k : String) : Option Value :=
  (body.find? (fun p => decide (p.1 = k))).map Prod.snd

/-- An HTTP JSON response, restricted to what the claims are about:
the status code, the `status` boolean, the message, and the optional
`data.user` object (an association list of serialized fields). -/
structure Response where
  status : Nat
  ok : Bool
  message : String
  user : Option (List (String × Value))
  deriving DecidableEq, Repr

/-- An error response: a status and a message, no `data.user`. -/
def errResp (status : Nat) (message : String) : Response :=
  { status := status, ok := false, message := message, user := none }

/-- `{...user}` followed by `delete userData.password`: serialize every
column of the row, then remove the `password` key. -/
def userObjOf (r : Row) : List (String × Value) :=
  (allCols.map (fun c => (c.colName, r c))).filter
    (fun p => decide (p.1 ≠ "password"))

/-- A success response carrying a user object sans password. -/
def okUserResp (status : Nat) (message : String) (r : Row) : Response :=
  { status := status, ok := true, message := message, user := some (userObjOf r) }

/-! ## Base64 and Basic-credential extraction -/

/-- JavaScript `s.split(sep)` for a one-character separator, on character
lists: splitting the empty string gives `[""]`, and separators at the ends
produce empty groups, exactly as in JavaScript. -/
def splitChar (sep : Char) : List Char → List (List Char)
  | [] => [[]]
  | c :: rest =>
    match splitChar sep rest with
    | [] => [[]]
    | g :: gs => if c = sep then [] :: g :: gs else (c :: g) :: gs

/-- `s.startsWith(pre)`. -/
def strStartsWith (s pre : String) : Bool :=
  pre.data.isPrefixOf s.data

/-- The value of one base64 alphabet character; `none` for characters the
lenient Node decoder skips (including padding). -/
def b64val (c : Char) : Option Nat :=
  if 'A' ≤ c ∧ c ≤ 'Z' then some (c.toNat - 65)
  else if 'a' ≤ c ∧ c ≤ 'z' then some (c.toNat - 97 + 26)
  else if '0' ≤ c ∧ c ≤ '9' then some (c.toNat - 48 + 52)
  else if c = '+' then some 62
  else if c = '/' then some 63
  else none

/-- Regroup a list of 6-bit values into 8-bit bytes, as the base64 decoder
does; a trailing lone 6-bit value contributes no byte. -/
def decodeGroups : List Nat → List Nat
  | a :: b :: c :: d :: rest =>
    (a * 4 + b / 16) :: ((b % 16) * 16 + c / 4) :: ((c % 4) * 64 + d) :: decodeGroups rest
  | [a, b] => [a * 4 + b / 16]
  | [a, b, c] => [a * 4 + b / 16, (b % 16) * 16 + c / 4]
  | _ => []

/-- `Buffer.from(s, 'base64').toString('ascii')`: Node's lenient base64
decoder (invalid characters are skipped, nothing throws), then the `ascii`
codec, which keeps the low 7 bits of each byte. -/
def b64decodeChars (s : List Char) : List Char :=
  (decodeGroups (s.filterMap b64val)).map (fun b => Char.ofNat (b % 128))

/-- `b64decodeChars` on strings. -/
def b64decode (s : String) : String :=
  String.mk (b64decodeChars s.data)

/-- Lines 61–63 of `server.js`: take the part of the header after the first
space, base64-decode it, split on `':'`, and destructure the first two
parts as `[email, password]` (the second is `undefined` when the decoded
string has no colon). -/
def credParts (h : String) : String × Option String :=
  let credentials := b64decodeChars ((splitChar ' ' h.data).getD 1 [])
  let parts := splitChar ':' credentials
  (String.mk (parts.headD []), (parts[1]?).map String.mk)

/-- The credential pair the gate acts on, `none` whenever the gate would
reject the header before touching the database: header absent, not a
`Basic ` header, or decoded email / password falsy. -/
def parseBasicCreds (header : Option String) : Option (String × String) :=
  match header with
  | none => none
  | some h =>
    if strStartsWith h "Basic " then
      let cp := credParts h
      if decide (cp.1 = "") || cp.2.isNone || decide (cp.2 = some "") then none
      else some (cp.1, cp.2.getD "")
    else none

/-- The `authenticateUser` middleware (lines 49–112 of `server.js`):
either an error response or the authenticated user attached to the request.
`verify` is `bcrypt.compare`. -/
def authenticateUser (verify : Value → Value → Bool) (db : Db)
    (header : Option String) : Except Response Row :=
  match header with
  | none => .error (errResp 401 "Basic authentication required")
  | some h =>
    if strStartsWith h "Basic " then
      let cp := credParts h
      if decide (cp.1 = "") || cp.2.isNone || decide (cp.2 = some "") then
        .error (errResp 401 "Email and password required")
      else
        match db.find? (fun r =>
            decide (r Col.email = .vStr cp.1) && decide (r Col.is_active = .vInt 1)) with
        | none => .error (errResp 401 "Invalid credentials")
        | some user =>
          if ¬ truthy (user Col.is_login_enable) then
            .error (errResp 403 "Login is disabled for this account")
          else if ¬ verify (.vStr (cp.2.getD "")) (user Col.password) then
            .error (errResp 401 "Invalid credentials")
          else .ok user
    else .error (errResp 401 "Basic authentication required")

/-! ## Validators

`express-validator` checks, shallowly embedded.  `isEmail` is a library
routine; it is modelled by a simple well-formedness test (one `@` with a
nonempty local part and a dotted domain) — no claim depends on its exact
boundary, only on concrete addresses such as `a@b.com` passing. -/

/-- Simplified model of `validator.isEmail` on a string value; non-string
values fail. -/
def isEmailVal : Value → Bool
  | .vStr s =>
    match splitChar '@' s.data with
    | [l, d] => decide (l ≠ []) && d.contains '.' &&
        decide (d.headD '.' ≠ '.') && decide (d.getLastD '.' ≠ '.')
    | _ => false
  | _ => false

/-- `notEmpty`: fails on `''`, `null`, `undefined`; other values coerce to
nonempty strings. -/
def notEmptyVal : Option Value → Bool
  | some (.vStr s) => decide (s ≠ "")
  | some (.vInt _) => true
  | some .vNull => false
  | some .vUndefined => false
  | none => false

/-- `isLength({min: 6})` for the register password. -/
def passwordLenOk : Option Value → Bool
  | some (.vStr s) => decide (6 ≤ s.length)
  | _ => false

/-- `isIn(['company', 'employee', 'admin'])` for the register type. -/
def typeOk : Option Value → Bool
  | some (.vStr s) => decide (s = "company" ∨ s = "employee" ∨ s = "admin")
  | _ => false

/-- The register-route validator chain (lines 116–120). -/
def registerValid (body : List (String × Value)) : Bool :=
  notEmptyVal (bodyLookup body "first_name") &&
  notEmptyVal (bodyLookup body "last_name") &&
  isEmailVal ((bodyLookup body "email").getD .vUndefined) &&
  passwordLenOk (bodyLookup body "password") &&
  typeOk (bodyLookup body "type")

/-- The login-route validator chain (lines 223–224). -/
def loginValid (emailV pwV : Value) : Bool :=
  isEmailVal emailV && notEmptyVal (some pwV)

/-- The four subscription tiers accepted by `isIn` on update-profile. -/
def subTiers : List String := ["Basic", "Silver", "Premium", "Enterprise"]

/-- `optional().isIn([...])` for the update-profile subscription. -/
def subOk : Option Value → Bool
  | none => true
  | some (.vStr s) => decide (s ∈ subTiers)
  | some _ => false

/-- `optional().notEmpty()`: passes when the field is absent. -/
def optNotEmpty : Option Value → Bool
  | none => true
  | some v => notEmptyVal (some v)

/-- The update-profile validator chain (lines 333–335). -/
def updValid (body : List (String × Value)) : Bool :=
  optNotEmpty (bodyLookup body "first_name") &&
  optNotEmpty (bodyLookup body "last_name") &&
  subOk (bodyLookup body "subscription")

/-! ## Company-id generation -/

/-- The base-36 digit characters `0`–`9`, `a`–`z`. -/
def base36Digit (n : Nat) : Char :=
  if n < 10 then Char.ofNat (48 + n) else Char.ofNat (87 + n)

/-- The exact base-36 fraction expansion of `num / 2^53`: the digit stream
printed by `Number.prototype.toString(36)` after `0.`.  The expansion of a
double terminates (within 27 digits, hence the fuel), because `36 = 2^2·9`
makes `k·36^27 / 2^53` an integer. -/
def expand36 : Nat → Nat → List Char
  | 0, _ => []
  | fuel + 1, num =>
    if num = 0 then []
    else base36Digit (num * 36 / 2 ^ 53) :: expand36 fuel (num * 36 % 2 ^ 53)

/-- `(k / 2^53).toString(36)` as a character list: `Math.random()` returns
doubles `k / 2^53` with `k < 2^53`; V8 prints `0` for zero and
`0.<digits>` otherwise. -/
def jsToString36 (k : Nat) : List Char :=
  if k = 0 then ['0'] else '0' :: '.' :: expand36 54 k

/-- `Math.random().toString(36).substring(2, 8)` (line 44): drop the
leading `0.` and keep at most six characters. -/
def randomPart36 (k : Nat) : List Char :=
  ((jsToString36 k).drop 2).take 6

/-- `generateCompanyId` (lines 42–46), with `Date.now()` as `t` and
`Math.random()` as `k / 2^53`. -/
def generateCompanyId (t k : Nat) : String :=
  "CMP-" ++ toString t ++ String.mk (randomPart36 k)

/-- Line 164: `type === 'company' ? generateCompanyId() : null`. -/
def companyIdValue (ty : Value) (t k : Nat) : Value :=
  if ty = .vStr "company" then .vStr (generateCompanyId t k) else .vNull

/-! ## Register -/

/-- The row the INSERT of lines 167–191 creates, with the MySQL-generated
id `newId`, the bcrypt digest `digest`, `NOW()` as `nowT`, and `last_login`
left to its column default `NULL`. -/
def mkRegisterRow (body : List (String × Value)) (digest cid newId nowT : Value) : Row :=
  fun c =>
    match c with
    | .id => newId
    | .first_name => (bodyLookup body "first_name").getD .vUndefined
    | .last_name => (bodyLookup body "last_name").getD .vUndefined
    | .email => (bodyLookup body "email").getD .vUndefined
    | .password => digest
    | .type => (bodyLookup body "type").getD .vUndefined
    | .company_id => cid
    | .subscription => .vStr "Basic"
    | .lang => (bodyLookup body "lang").getD (.vStr "en")
    | .plan => .vInt 0
    | .avatar => (bodyLookup body "avatar").getD (.vStr "")
    | .created_by => .vInt 0
    | .is_active => .vInt 1
    | .is_login_enable => .vInt 1
    | .dark_mode => .vInt 0
    | .messenger_color => .vStr "#2180f3"
    | .is_disable => .vInt 1
    | .last_login => .vNull
    | .created_at => nowT
    | .updated_at => nowT

/-- `POST /api/register` (lines 115–219).  `digest` is the bcrypt hash of
the supplied password, `t`/`k` feed `generateCompanyId`, `newId` is the
store-generated id, `nowT` is `NOW()`. -/
def register (db : Db) (body : List (String × Value)) (digest : Value)
    (t k : Nat) (newId nowT : Value) : Db × Response :=
  if ¬ registerValid body then
    (db, errResp 400 "Validation errors")
  else
    match db.find? (fun r =>
        decide (r Col.email = (bodyLookup body "email").getD .vUndefined)) with
    | some _ => (db, errResp 400 "Email already registered")
    | none =>
      let cid := companyIdValue ((bodyLookup body "type").getD .vUndefined) t k
      let row := mkRegisterRow body digest cid newId nowT
      let db2 := db ++ [row]
      match db2.find? (fun r => decide (r Col.id = newId)) with
      | some r => (db2, okUserResp 201 "User registered successfully" r)
      | none =>
        (db2, { status := 201, ok := true,
                message := "User registered successfully", user := some [] })

/-! ## Login -/

/-- `POST /api/login` (lines 222–304).  The returned database has
`last_login` set to `NOW()` on the user's row; the response serializes the
row snapshot loaded before that update. -/
def login (verify : Value → Value → Bool) (db : Db) (nowT : Value)
    (emailV pwV : Value) : Db × Response :=
  if ¬ loginValid emailV pwV then
    (db, errResp 400 "Validation errors")
  else
    match db.find? (fun r => decide (r Col.email = emailV)) with
    | none => (db, errResp 401 "Invalid email or password")
    | some user =>
      if ¬ truthy (user Col.is_active) then
        (db, errResp 403 "Account is not active")
      else if ¬ truthy (user Col.is_login_enable) then
        (db, errResp 403 "Login is disabled for this account")
      else if ¬ verify pwV (user Col.password) then
        (db, errResp 401 "Invalid email or password")
      else
        (db.map (fun r =>
           if r Col.id = user Col.id then setCol r Col.last_login nowT else r),
         okUserResp 200 "Login successful" user)

/-! ## Get profile and logout -/

/-- `GET /api/profile` (lines 307–329): the gate, then the gate's user sans
password.  The database is unchanged. -/
def getProfile (verify : Value → Value → Bool) (db : Db)
    (header : Option String) : Response :=
  match authenticateUser verify db header with
  | .error resp => resp
  | .ok user => okUserResp 200 "Profile retrieved successfully" user

/-- `POST /api/logout` (lines 409–422): the gate, then a generic success. -/
def logout (verify : Value → Value → Bool) (db : Db)
    (header : Option String) : Response :=
  match authenticateUser verify db header with
  | .error resp => resp
  | .ok _ =>
    { status := 200, ok := true, message := "Logged out successfully", user := none }

/-! ## Update profile

The handler builds a JavaScript object `updates` mapping column names to
either the placeholder `'?'` or the literal `NOW()`, and a parallel array
`values`; the SQL text is `Object.keys(updates)` joined in insertion order,
so the prepared statement binds `values` positionally to the `'?'`
placeholders, with the final value bound to `WHERE id = ?`. -/

/-- The right-hand side recorded in the `updates` object: the `'?'`
placeholder or the literal `NOW()`. -/
inductive Rhs where
  | param
  | now
  deriving DecidableEq, Repr

/-- JavaScript object assignment `o[k] = v`: update in place when the key
exists (insertion order kept), append otherwise. -/
def objSet (o : List (String × Rhs)) (k : String) (v : Rhs) : List (String × Rhs) :=
  if o.any (fun p => decide (p.1 = k)) then
    o.map (fun p => if p.1 = k then (p.1, v) else p)
  else o ++ [(k, v)]

/-- Lines 353–358: the loop over `Object.keys(req.body)`, skipping
`password` and `undefined` values, recording a placeholder per key and
pushing the value. -/
def buildLoop : List (String × Value) → List (String × Rhs) → List Value →
    List (String × Rhs) × List Value
  | [], ups, vals => (ups, vals)
  | (k, v) :: rest, ups, vals =>
    if decide (v ≠ .vUndefined) && decide (k ≠ "password") then
      buildLoop rest (objSet ups k .param) (vals ++ [v])
    else buildLoop rest ups vals

/-- The literal `planMap` object of line 369; indexing with a key that is
not present yields `undefined` (`none`). -/
def planMap (s : String) : Option Int :=
  if s = "Basic" then some 0
  else if s = "Silver" then some 1
  else if s = "Premium" then some 2
  else if s = "Enterprise" then some 3
  else none

/-- Resolve the column of each SET item and bind the `'?'` placeholders to
the supplied values in order, as the prepared statement does.  Returns the
bound SET list (`none` value = `NOW()`) and the unconsumed values; errors
on an unknown column or on running out of values. -/
def bindAssigns : List (String × Rhs) → List Value →
    Except String (List (Col × Option Value) × List Value)
  | [], vals => .ok ([], vals)
  | (k, rhs) :: rest, vals =>
    match colOfName k with
    | none => .error "Unknown column"
    | some c =>
      match rhs with
      | .now =>
        match bindAssigns rest vals with
        | .error e => .error e
        | .ok (bs, rem) => .ok ((c, none) :: bs, rem)
      | .param =>
        match vals with
        | [] => .error "Incorrect arguments to mysqld_stmt_execute"
        | v :: vs =>
          match bindAssigns rest vs with
          | .error e => .error e
          | .ok (bs, rem) => .ok ((c, some v) :: bs, rem)

/-- Apply the bound SET list to a row, left to right; a `none` value is the
literal `NOW()`. -/
def applyBinds (r : Row) (bs : List (Col × Option Value)) (nowT : Value) : Row :=
  bs.foldl (fun r2 cv => setCol r2 cv.1 (cv.2.getD nowT)) r

/-- `pool.execute` of the built UPDATE statement: rejects `undefined` bind
parameters (mysql2), unknown columns, and a value count different from the
placeholder count (the last value binds `WHERE id = ?`); otherwise applies
the SET list to every row whose `id` equals the bound id value. -/
def executeUpdate (db : Db) (ups : List (String × Rhs)) (vals : List Value)
    (nowT : Value) : Except String Db :=
  if vals.any (fun v => decide (v = .vUndefined)) then
    .error "Bind parameters must not contain undefined"
  else
    match bindAssigns ups vals with
    | .error e => .error e
    | .ok (bs, rem) =>
      match rem with
      | [idVal] =>
        .ok (db.map (fun r => if r Col.id = idVal then applyBinds r bs nowT else r))
      | _ => .error "Incorrect arguments to mysqld_stmt_execute"

/-- The value line 371 pushes for the derived plan:
`planMap[req.body.subscription]`, `undefined` when the subscription value
is not a key of the map. -/
def planValueOf (subV : Value) : Value :=
  match subV with
  | .vStr s => (planMap s).elim .vUndefined (fun n => .vInt n)
  | _ => .vUndefined

/-- Lines 347–396 of `server.js`, after the gate and the validators have
passed: dynamic UPDATE construction (body loop, derived plan when a truthy
subscription is present, `updated_at = NOW()`), execute, reload, respond.
`user` is the row the gate attached to the request. -/
def updCore (db : Db) (body : List (String × Value)) (nowT : Value)
    (user : Row) : Db × Response :=
  let bl := buildLoop body [] []
  if bl.2.length = 0 then
    (db, errResp 400 "No valid fields to update")
  else
    let subV := (bodyLookup body "subscription").getD .vUndefined
    let ups1 := if truthy subV then objSet bl.1 "plan" .param else bl.1
    let vals1 := if truthy subV then bl.2 ++ [planValueOf subV] else bl.2
    let ups2 := objSet ups1 "updated_at" .now
    let vals2 := vals1 ++ [user Col.id]
    match executeUpdate db ups2 vals2 nowT with
    | .error _ => (db, errResp 500 "Internal server error")
    | .ok db2 =>
      match db2.find? (fun r => decide (r Col.id = user Col.id)) with
      | some r => (db2, okUserResp 200 "Profile updated successfully" r)
      | none =>
        (db2, { status := 200, ok := true,
                message := "Profile updated successfully", user := some [] })

/-- `PUT /api/profile` (lines 332–406): gate, validators, then `updCore`. -/
def updateProfile (verify : Value → Value → Bool) (db : Db)
    (header : Option String) (body : List (String × Value)) (nowT : Value) :
    Db × Response :=
  match authenticateUser verify db header with
  | .error resp => (db, resp)
  | .ok user =>
    if ¬ updValid body then
      (db, errResp 400 "Validation errors")
    else updCore db body nowT user

/-! ## Concrete fixtures for witnesses -/

/-- A concrete `bcrypt.compare`: accepts exactly the password `hunter2`
against the digest `H2`, the password `pa:ss` against `H3`. -/
def demoVerify : Value → Value → Bool := fun p h =>
  decide ((p = .vStr "hunter2" ∧ h = .vStr "H2") ∨ (p = .vStr "pa:ss" ∧ h = .vStr "H3"))

/-- An active, login-enabled user row. -/
def aliceRow : Row := fun c =>
  match c with
  | .id => .vInt 1
  | .first_name => .vStr "Alice"
  | .last_name => .vStr "A"
  | .email => .vStr "a@b.com"
  | .password => .vStr "H2"
  | .type => .vStr "employee"
  | .company_id => .vNull
  | .subscription => .vStr "Basic"
  | .lang => .vStr "en"
  | .plan => .vInt 0
  | .avatar => .vStr ""
  | .created_by => .vInt 0
  | .is_active => .vInt 1
  | .is_login_enable => .vInt 1
  | .dark_mode => .vInt 0
  | .messenger_color => .vStr "#2180f3"
  | .is_disable => .vInt 1
  | .last_login => .vNull
  | .created_at => .vStr "t0"
  | .updated_at => .vStr "t0"

/-- A deactivated user row (`is_active = 0`) with a correct password
relation to `demoVerify`. -/
def bobRow : Row := fun c =>
  match c with
  | .id => .vInt 2
  | .email => .vStr "b@b.com"
  | .password => .vStr "H2"
  | .is_active => .vInt 0
  | .is_login_enable => .vInt 1
  | .last_login => .vNull
  | c2 => aliceRow c2

/-- The one-user demo table. -/
def demoDb : Db := [aliceRow]

/-- An active, login-enabled user whose password (per `demoVerify`)
is `pa:ss`, which contains a colon. -/
def carolRow : Row := fun c =>
  match c with
  | .password => .vStr "H3"
  | c2 => aliceRow c2

/-- `Authorization: Basic base64("a@b.com:hunter2")`. -/
def demoHeader : String := "Basic YUBiLmNvbTpodW50ZXIy"

/-- `Authorization: Basic base64("b@b.com:hunter2")`. -/
def bobHeader : String := "Basic YkBiLmNvbTpodW50ZXIy"

/-! ## Lemmas about response shapes -/

/-- The serialized user object of a response (when there is one) carries no
`password` key. -/
def respNoPw (r : Response) : Bool :=
  Option.all (fun o => o.all (fun p => decide (p.1 ≠ "password"))) r.user

theorem respNoPw_user_none {r : Response} (h : r.user = none) : respNoPw r = true := by
  simp [respNoPw, h]

theorem respNoPw_errResp (s : Nat) (m : String) : respNoPw (errResp s m) = true := rfl

theorem respNoPw_okUserResp (s : Nat) (m : String) (r : Row) :
    respNoPw (okUserResp s m r) = true := by
  simp only [respNoPw, okUserResp, userObjOf, Option.all_some, List.all_eq_true]
  intro p hp
  exact (List.mem_filter.mp hp).2

/-- Every failure of the authentication gate is a bare 401 or 403 error
response with no user data. -/
theorem authenticateUser_error_shape (verify : Value → Value → Bool) (db : Db)
    (header : Option String) (resp : Response)
    (h : authenticateUser verify db header = .error resp) :
    resp.user = none ∧ (resp.status = 401 ∨ resp.status = 403) := by
  unfold authenticateUser at h
  split at h
  · cases h; exact ⟨rfl, .inl rfl⟩
  · dsimp only at h
    split at h
    · split at h
      · cases h; exact ⟨rfl, .inl rfl⟩
      · split at h
        · cases h; exact ⟨rfl, .inl rfl⟩
        · split at h
          · cases h; exact ⟨rfl, .inr rfl⟩
          · split at h
            · cases h; exact ⟨rfl, .inl rfl⟩
            · cases h
    · cases h; exact ⟨rfl, .inl rfl⟩

theorem register_respNoPw (db : Db) (body : List (String × Value)) (digest : Value)
    (t k : Nat) (newId nowT : Value) :
    respNoPw (register db body digest t k newId nowT).2 = true := by
  unfold register
  split
  · exact respNoPw_errResp _ _
  · split
    · exact respNoPw_errResp _ _
    · dsimp only
      split
      · exact respNoPw_okUserResp _ _ _
      · rfl

theorem login_respNoPw (verify : Value → Value → Bool) (db : Db) (nowT emailV pwV : Value) :
    respNoPw (login verify db nowT emailV pwV).2 = true := by
  unfold login
  split
  · exact respNoPw_errResp _ _
  · split
    · exact respNoPw_errResp _ _
    · split
      · exact respNoPw_errResp _ _
      · split
        · exact respNoPw_errResp _ _
        · split
          · exact respNoPw_errResp _ _
          · exact respNoPw_okUserResp _ _ _

theorem getProfile_respNoPw (verify : Value → Value → Bool) (db : Db)
    (header : Option String) :
    respNoPw (getProfile verify db header) = true := by
  unfold getProfile
  split
  · next resp hresp =>
      exact respNoPw_user_none (authenticateUser_error_shape verify db header resp hresp).1
  · exact respNoPw_okUserResp _ _ _

theorem updCore_respNoPw (db : Db) (body : List (String × Value)) (nowT : Value)
    (user : Row) : respNoPw (updCore db body nowT user).2 = true := by
  unfold updCore
  dsimp only
  split
  · exact respNoPw_errResp _ _
  · split
    · exact respNoPw_errResp _ _
    · split
      · exact respNoPw_okUserResp _ _ _
      · rfl

theorem updateProfile_respNoPw (verify : Value → Value → Bool) (db : Db)
    (header : Option String) (body : List (String × Value)) (nowT : Value) :
    respNoPw (updateProfile verify db header body nowT).2 = true := by
  unfold updateProfile
  split
  · next resp hresp =>
      exact respNoPw_user_none (authenticateUser_error_shape verify db header resp hresp).1
  · split
    · exact respNoPw_errResp _ _
    · exact updCore_respNoPw _ _ _ _

/-- A request Authorization header the gate rejects before consulting the
database: absent, without the `Basic ` scheme prefix, or whose payload does
not decode to a usable `email:password` pair (in particular a payload with
no decodable base64 content, which decodes to the empty string). -/
def malformedBasicHeader (header : Option String) : Bool :=
  (parseBasicCreds header).isNone

/-- On a malformed header the gate fails with a 401 error response. -/
theorem authenticateUser_malformed (verify : Value → Value → Bool) (db : Db)
    (header : Option String) (h : malformedBasicHeader header = true) :
    ∃ m, authenticateUser verify db header = .error (errResp 401 m) := by
  unfold malformedBasicHeader parseBasicCreds at h
  unfold authenticateUser
  cases header with
  | none => exact ⟨_, rfl⟩
  | some hd =>
    dsimp only at h ⊢
    by_cases hsw : strStartsWith hd "Basic " = true
    · rw [if_pos hsw] at h ⊢
      by_cases hc : (decide ((credParts hd).1 = "") || (credParts hd).2.isNone ||
          decide ((credParts hd).2 = some "")) = true
      · rw [if_pos hc]
        exact ⟨_, rfl⟩
      · rw [if_neg hc] at h
        simp at h
    · rw [if_neg hsw] at h ⊢
      exact ⟨_, rfl⟩

/-! ## Claim C2 -/

/-- C2: for every request to any endpoint (register, login, get-profile,
update-profile), whenever the response body contains a user object, that
object contains no `password` key. -/
theorem c2_password_never_serialized (verify : Value → Value → Bool) (db : Db)
    (body updBody : List (String × Value)) (digest : Value) (t k : Nat)
    (newId nowT emailV pwV : Value) (header : Option String) :
    respNoPw (register db body digest t k newId nowT).2 = true ∧
    respNoPw (login verify db nowT emailV pwV).2 = true ∧
    respNoPw (getProfile verify db header) = true ∧
    respNoPw (updateProfile verify db header updBody nowT).2 = true :=
  ⟨register_respNoPw db body digest t k newId nowT,
   login_respNoPw verify db nowT emailV pwV,
   getProfile_respNoPw verify db header,
   updateProfile_respNoPw verify db header updBody nowT⟩

/-! ## Claim C3 -/

/-- C3: for every request to a gate-protected endpoint whose Authorization
header is absent or malformed (header missing, scheme not `Basic `, or no
usable base64 `email:password` payload), the gate fails with status 401 and
the response carries no user data; the database is untouched by the
update-profile route. -/
theorem c3_malformed_basic_auth_401 (verify : Value → Value → Bool) (db : Db)
    (header : Option String) (body : List (String × Value)) (nowT : Value)
    (h : malformedBasicHeader header = true) :
    (getProfile verify db header).status = 401 ∧
    (getProfile verify db header).user = none ∧
    (updateProfile verify db header body nowT).2.status = 401 ∧
    (updateProfile verify db header body nowT).2.user = none ∧
    (updateProfile verify db header body nowT).1 = db ∧
    (logout verify db header).status = 401 ∧
    (logout verify db header).user = none := by
  obtain ⟨m, hm⟩ := authenticateUser_malformed verify db header h
  unfold getProfile updateProfile logout
  rw [hm]
  exact ⟨rfl, rfl, rfl, rfl, rfl, rfl, rfl⟩

/-- C3 witness: a concrete header whose payload has no decodable base64
content is rejected with 401 and no user data. -/
theorem c3_malformed_basic_auth_401_witness :
    malformedBasicHeader (some "Basic ???") = true ∧
    ((getProfile demoVerify demoDb (some "Basic ???")).status = 401 ∧
     (getProfile demoVerify demoDb (some "Basic ???")).user = none ∧
     (updateProfile demoVerify demoDb (some "Basic ???") [] (.vStr "t1")).2.status = 401 ∧
     (updateProfile demoVerify demoDb (some "Basic ???") [] (.vStr "t1")).2.user = none ∧
     (updateProfile demoVerify demoDb (some "Basic ???") [] (.vStr "t1")).1 = demoDb ∧
     (logout demoVerify demoDb (some "Basic ???")).status = 401 ∧
     (logout demoVerify demoDb (some "Basic ???")).user = none) :=
  ⟨by decide,
   c3_malformed_basic_auth_401 demoVerify demoDb (some "Basic ???") [] (.vStr "t1")
     (by decide)⟩

/-! ## Claim C5 -/

/-- C5 (code bug): the gate splits the decoded credential string on every
colon and keeps only the first two parts, so for the credential
`a@b.com:pa:ss` the password handed to verification is `pa`, not the
remainder `pa:ss` after the first colon.  Consequently a user whose stored
password is `pa:ss` (accepted by the JSON login endpoint) can never pass
the Basic gate with the correctly encoded header. -/
theorem c5_colon_password_truncated :
    b64decode "YUBiLmNvbTpwYTpzcw==" = "a@b.com:pa:ss" ∧
    parseBasicCreds (some "Basic YUBiLmNvbTpwYTpzcw==") = some ("a@b.com", "pa") ∧
    ("pa" : String) ≠ "pa:ss" ∧
    (login demoVerify [carolRow] (.vStr "t1") (.vStr "a@b.com") (.vStr "pa:ss")).2.status
      = 200 ∧
    (getProfile demoVerify [carolRow] (some "Basic YUBiLmNvbTpwYTpzcw==")).status = 401 :=
  ⟨by decide, by decide, by decide, by decide, by decide⟩

/-! ## Claim C8 -/

/-- C8 counterexample: for `Math.random() = 0.5` (the double `2^52/2^53`),
`toString(36)` is `0.i`, so `substring(2, 8)` has length 1, not 6: the
random part of a company id is not always exactly six characters. -/
theorem c8_random_part_not_six_chars :
    jsToString36 (2 ^ 52) = ['0', '.', 'i'] ∧
    (randomPart36 (2 ^ 52)).length = 1 ∧
    ¬ (randomPart36 (2 ^ 52)).length = 6 ∧
    generateCompanyId 1700000000000 (2 ^ 52) = "CMP-1700000000000i" :=
  ⟨by decide, by decide, by decide, by decide⟩

theorem base36Digit_mem_alphabet :
    ∀ d, d < 36 → base36Digit d ∈ "0123456789abcdefghijklmnopqrstuvwxyz".data := by
  decide

theorem expand36_mem_alphabet (fuel : Nat) :
    ∀ num, num < 2 ^ 53 →
      ∀ c ∈ expand36 fuel num, c ∈ "0123456789abcdefghijklmnopqrstuvwxyz".data := by
  induction fuel with
  | zero => intro num _ c hc; simp [expand36] at hc
  | succ fuel ih =>
    intro num hnum c hc
    unfold expand36 at hc
    split at hc
    · simp at hc
    · rcases List.mem_cons.mp hc with h | h
      · subst h
        exact base36Digit_mem_alphabet _
          (Nat.div_lt_of_lt_mul (by omega))
      · exact ih (num * 36 % 2 ^ 53) (Nat.mod_lt _ (by norm_num)) c h

/-- C8 amended: every generated company id is the concatenation of the
literal prefix `CMP-`, the epoch-millisecond timestamp, and a random
base-36 string of at most 6 characters (exactly the first min(6, length)
digits of the random double's base-36 expansion); and the stored
`company_id` is non-null exactly when the registered type is `company`. -/
theorem c8_company_id_shape (t k : Nat) (hk : k < 2 ^ 53) (ty : Value) :
    generateCompanyId t k = "CMP-" ++ toString t ++ String.mk (randomPart36 k) ∧
    (randomPart36 k).length ≤ 6 ∧
    (∀ c ∈ randomPart36 k, c ∈ "0123456789abcdefghijklmnopqrstuvwxyz".data) ∧
    (companyIdValue ty t k ≠ .vNull ↔ ty = .vStr "company") := by
  refine ⟨rfl, ?_, ?_, ?_⟩
  · exact List.length_take_le 6 _
  · intro c hc
    have hc2 : c ∈ (jsToString36 k).drop 2 := List.take_subset 6 _ hc
    unfold jsToString36 at hc2
    split at hc2
    · simp at hc2
    · exact expand36_mem_alphabet 54 k hk c hc2
  · unfold companyIdValue
    split
    · next hty => simp [hty]
    · next hty => simp [hty]

/-- C8 amended, witness: a concrete timestamp, random seed, and type. -/
theorem c8_company_id_shape_witness :
    (2 ^ 51 < 2 ^ 53) ∧
    (generateCompanyId 42 (2 ^ 51)
        = "CMP-" ++ toString 42 ++ String.mk (randomPart36 (2 ^ 51)) ∧
     (randomPart36 (2 ^ 51)).length ≤ 6 ∧
     (∀ c ∈ randomPart36 (2 ^ 51), c ∈ "0123456789abcdefghijklmnopqrstuvwxyz".data) ∧
     (companyIdValue (.vStr "company") 42 (2 ^ 51) ≠ .vNull ↔
        (Value.vStr "company") = .vStr "company")) :=
  ⟨by decide, c8_company_id_shape 42 (2 ^ 51) (by decide) (.vStr "company")⟩

/-! ## Claim C4 -/

/-- When every row carrying the email belongs to a user who is not
`is_active = 1`, the gate's `WHERE email = ? AND is_active = 1` lookup
comes back empty. -/
theorem gate_find_none {db : Db} {e : String} {u : Row}
    (huniq : ∀ r ∈ db, r Col.email = .vStr e → r = u)
    (hact : u Col.is_active ≠ .vInt 1) :
    db.find? (fun r =>
        decide (r Col.email = .vStr e) && decide (r Col.is_active = .vInt 1)) = none := by
  induction db with
  | nil => rfl
  | cons r rest ih =>
    have hr : (decide (r Col.email = .vStr e) && decide (r Col.is_active = .vInt 1))
        = false := by
      by_cases he : r Col.email = .vStr e
      · have hru : r = u := huniq r (List.mem_cons_self r rest) he
        subst hru
        simp [hact]
      · simp [he]
    simp only [List.find?, hr]
    exact ih (fun r2 hr2 he2 => huniq r2 (List.mem_cons_of_mem _ hr2) he2)

/-- When the user carrying the email is `is_active = 1`, the gate's lookup
finds that user. -/
theorem gate_find_active {db : Db} {e : String} {u : Row}
    (huniq : ∀ r ∈ db, r Col.email = .vStr e → r = u)
    (hu : u ∈ db) (hue : u Col.email = .vStr e)
    (hact : u Col.is_active = .vInt 1) :
    db.find? (fun r =>
        decide (r Col.email = .vStr e) && decide (r Col.is_active = .vInt 1)) = some u := by
  induction db with
  | nil => cases hu
  | cons r rest ih =>
    by_cases he : r Col.email = .vStr e
    · have hru : r = u := huniq r (List.mem_cons_self r rest) he
      subst hru
      simp only [List.find?, hue, hact, decide_True, Bool.and_self]
    · have hur : u ∈ rest := by
        rcases List.mem_cons.mp hu with h | h
        · exact absurd (h ▸ hue) he
        · exact h
      have hr : (decide (r Col.email = .vStr e) && decide (r Col.is_active = .vInt 1))
          = false := by simp [he]
      simp only [List.find?, hr]
      exact ih (fun r2 hr2 he2 => huniq r2 (List.mem_cons_of_mem _ hr2) he2) hur

/-- Decomposition of a successfully parsed Basic header. -/
theorem parseBasicCreds_some {header : Option String} {e p : String}
    (h : parseBasicCreds header = some (e, p)) :
    ∃ hd, header = some hd ∧ strStartsWith hd "Basic " = true ∧
      credParts hd = (e, some p) ∧
      (decide ((credParts hd).1 = "") || ((credParts hd).2).isNone ||
        decide ((credParts hd).2 = some "")) = false := by
  cases header with
  | none => simp [parseBasicCreds] at h
  | some hd =>
    refine ⟨hd, rfl, ?_⟩
    unfold parseBasicCreds at h
    dsimp only at h
    by_cases hsw : strStartsWith hd "Basic " = true
    · rw [if_pos hsw] at h
      by_cases hc : (decide ((credParts hd).1 = "") || ((credParts hd).2).isNone ||
          decide ((credParts hd).2 = some "")) = true
      · rw [if_pos hc] at h
        cases h
      · rw [if_neg hc] at h
        have hc2 := Bool.eq_false_iff.mpr hc
        refine ⟨hsw, ?_, hc2⟩
        have h1 : (credParts hd).1 = e := (Prod.mk.injEq _ _ _ _).mp (Option.some.inj h) |>.1
        have h2 : ((credParts hd).2).getD "" = p :=
          (Prod.mk.injEq _ _ _ _).mp (Option.some.inj h) |>.2
        have hnn : ((credParts hd).2).isNone = false :=
          (Bool.or_eq_false_iff.mp (Bool.or_eq_false_iff.mp hc2).1).2
        cases hq2 : (credParts hd).2 with
        | none => rw [hq2] at hnn; simp at hnn
        | some q =>
          rw [hq2] at h2
          simp only [Option.getD_some] at h2
          exact Prod.ext_iff.mpr ⟨h1, by rw [hq2, h2]⟩
    · rw [if_neg hsw] at h
      cases h

/-- The gate rejects — with 401 or 403 and no user data — any request whose
parsed credentials name a user that is inactive or has login disabled,
whatever the password. -/
theorem authenticateUser_flags (verify : Value → Value → Bool) (db : Db)
    (header : Option String) (e p : String) (u : Row)
    (hparse : parseBasicCreds header = some (e, p))
    (huniq : ∀ r ∈ db, r Col.email = .vStr e → r = u)
    (hu : u ∈ db) (hue : u Col.email = .vStr e)
    (hflag : u Col.is_active = .vInt 0 ∨ truthy (u Col.is_login_enable) = false) :
    ∃ resp, authenticateUser verify db header = .error resp ∧ resp.user = none ∧
      (resp.status = 401 ∨ resp.status = 403) := by
  obtain ⟨hd, hh, hsw, hcp, hcond⟩ := parseBasicCreds_some hparse
  subst hh
  unfold authenticateUser
  dsimp only
  rw [if_pos hsw]
  rw [Bool.eq_false_iff] at hcond
  rw [if_neg hcond]
  by_cases hact : u Col.is_active = .vInt 1
  · have hen : truthy (u Col.is_login_enable) = false := by
      rcases hflag with h | h
      · rw [h] at hact; cases hact
      · exact h
    rw [hcp]
    dsimp only
    rw [gate_find_active huniq hu hue hact]
    dsimp only
    rw [if_pos (show ¬ truthy (u Col.is_login_enable) = true by simp [hen])]
    exact ⟨_, rfl, rfl, .inr rfl⟩
  · rw [hcp]
    dsimp only
    rw [gate_find_none huniq hact]
    exact ⟨_, rfl, rfl, .inl rfl⟩

/-- C4: a user record with `is_active` false or `is_login_enable` false
blocks authentication regardless of password correctness (`verify` is
universally quantified): the login endpoint returns 403 with no user data,
and the authentication gate — hence `GET /api/profile` — fails with 401 or
403 and no user data; in particular login with `is_active = 0` and correct
credentials returns 403. -/
theorem c4_inactive_or_disabled_blocks_auth (verify : Value → Value → Bool)
    (db : Db) (nowT pwV : Value) (e : String) (u : Row)
    (header : Option String) (p : String)
    (hvalid : loginValid (.vStr e) pwV = true)
    (hfind : db.find? (fun r => decide (r Col.email = .vStr e)) = some u)
    (hflag : u Col.is_active = .vInt 0 ∨ truthy (u Col.is_login_enable) = false)
    (hparse : parseBasicCreds header = some (e, p))
    (huniq : ∀ r ∈ db, r Col.email = .vStr e → r = u) :
    ((login verify db nowT (.vStr e) pwV).2.status = 403 ∧
     (login verify db nowT (.vStr e) pwV).2.user = none ∧
     (login verify db nowT (.vStr e) pwV).1 = db) ∧
    ((getProfile verify db header).status = 401 ∨
     (getProfile verify db header).status = 403) ∧
    (getProfile verify db header).user = none := by
  have hu : u ∈ db := List.mem_of_find?_eq_some hfind
  have hue : u Col.email = .vStr e := by
    have := List.find?_some hfind
    simpa using this
  constructor
  · unfold login
    rw [if_neg (show ¬ ¬ loginValid (.vStr e) pwV = true by simp [hvalid])]
    rw [hfind]
    dsimp only
    by_cases hact : truthy (u Col.is_active) = true
    · have hen : truthy (u Col.is_login_enable) = false := by
        rcases hflag with h | h
        · rw [h] at hact; cases hact
        · exact h
      rw [if_neg (show ¬ ¬ truthy (u Col.is_active) = true by simp [hact])]
      rw [if_pos (show ¬ truthy (u Col.is_login_enable) = true by simp [hen])]
      exact ⟨rfl, rfl, rfl⟩
    · rw [if_pos (show ¬ truthy (u Col.is_active) = true by simpa using hact)]
      exact ⟨rfl, rfl, rfl⟩
  · obtain ⟨resp, hresp, hrn, hrs⟩ :=
      authenticateUser_flags verify db header e p u hparse huniq hu hue hflag
    unfold getProfile
    rw [hresp]
    exact ⟨hrs, hrn⟩

/-- C4 witness: the deactivated user `bobRow` with the correct password
cannot log in (403) nor pass the gate (401). -/
theorem c4_inactive_or_disabled_blocks_auth_witness :
    (loginValid (.vStr "b@b.com") (.vStr "hunter2") = true ∧
     ([bobRow] : Db).find? (fun r => decide (r Col.email = .vStr "b@b.com")) = some bobRow ∧
     (bobRow Col.is_active = .vInt 0 ∨ truthy (bobRow Col.is_login_enable) = false) ∧
     parseBasicCreds (some bobHeader) = some ("b@b.com", "hunter2")) ∧
    (((login demoVerify [bobRow] (.vStr "t1") (.vStr "b@b.com") (.vStr "hunter2")).2.status
        = 403 ∧
      (login demoVerify [bobRow] (.vStr "t1") (.vStr "b@b.com") (.vStr "hunter2")).2.user
        = none ∧
      (login demoVerify [bobRow] (.vStr "t1") (.vStr "b@b.com") (.vStr "hunter2")).1
        = [bobRow]) ∧
     ((getProfile demoVerify [bobRow] (some bobHeader)).status = 401 ∨
      (getProfile demoVerify [bobRow] (some bobHeader)).status = 403) ∧
     (getProfile demoVerify [bobRow] (some bobHeader)).user = none) :=
  ⟨⟨by decide, rfl, by decide, by decide⟩,
   c4_inactive_or_disabled_blocks_auth demoVerify [bobRow] (.vStr "t1") (.vStr "hunter2")
     "b@b.com" bobRow (some bobHeader) "hunter2"
     (by decide) rfl (by decide) (by decide)
     (by intro r hr _
         exact List.mem_singleton.mp hr)⟩

/-! ## Claim C7 -/

/-- C7: every successful registration appends a row whose defaults are the
fixed constants `subscription = "Basic"`, `plan = 0`, `is_active = 1`,
`is_login_enable = 1`, `is_disable = 1`, `dark_mode = 0`, `created_by = 0`,
`messenger_color = "#2180f3"`, for an arbitrary request body — in
particular independent of any `subscription`, `plan`, `is_active` or other
non-client fields the body may carry. -/
theorem c7_register_fixed_defaults (db : Db) (body : List (String × Value))
    (digest : Value) (t k : Nat) (newId nowT : Value)
    (hvalid : registerValid body = true)
    (hemail : db.find? (fun r =>
        decide (r Col.email = (bodyLookup body "email").getD .vUndefined)) = none) :
    ∃ r : Row, (register db body digest t k newId nowT).1 = db ++ [r] ∧
      (register db body digest t k newId nowT).2.status = 201 ∧
      r Col.subscription = .vStr "Basic" ∧ r Col.plan = .vInt 0 ∧
      r Col.is_active = .vInt 1 ∧ r Col.is_login_enable = .vInt 1 ∧
      r Col.is_disable = .vInt 1 ∧ r Col.dark_mode = .vInt 0 ∧
      r Col.created_by = .vInt 0 ∧ r Col.messenger_color = .vStr "#2180f3" := by
  unfold register
  rw [if_neg (show ¬ ¬ registerValid body = true by simp [hvalid])]
  rw [hemail]
  dsimp only
  refine ⟨mkRegisterRow body digest
    (companyIdValue ((bodyLookup body "type").getD .vUndefined) t k) newId nowT,
    ?_, ?_, rfl, rfl, rfl, rfl, rfl, rfl, rfl, rfl⟩
  · split <;> rfl
  · split <;> rfl

/-- C7 witness: a body that tries to set `subscription`, `plan` and
`is_active` at registration still gets the fixed defaults. -/
theorem c7_register_fixed_defaults_witness :
    (registerValid
        [("first_name", .vStr "Bea"), ("last_name", .vStr "B"),
         ("email", .vStr "bea@x.com"), ("password", .vStr "secret1"),
         ("type", .vStr "company"), ("subscription", .vStr "Premium"),
         ("plan", .vInt 3), ("is_active", .vInt 0)] = true ∧
     demoDb.find? (fun r =>
        decide (r Col.email =
          (bodyLookup
            [("first_name", .vStr "Bea"), ("last_name", .vStr "B"),
             ("email", .vStr "bea@x.com"), ("password", .vStr "secret1"),
             ("type", .vStr "company"), ("subscription", .vStr "Premium"),
             ("plan", .vInt 3), ("is_active", .vInt 0)] "email").getD .vUndefined)) = none) ∧
    (∃ r : Row,
      (register demoDb
        [("first_name", .vStr "Bea"), ("last_name", .vStr "B"),
         ("email", .vStr "bea@x.com"), ("password", .vStr "secret1"),
         ("type", .vStr "company"), ("subscription", .vStr "Premium"),
         ("plan", .vInt 3), ("is_active", .vInt 0)]
        (.vStr "D1") 1700000000000 (2 ^ 51) (.vInt 9) (.vStr "t1")).1 = demoDb ++ [r] ∧
      (register demoDb
        [("first_name", .vStr "Bea"), ("last_name", .vStr "B"),
         ("email", .vStr "bea@x.com"), ("password", .vStr "secret1"),
         ("type", .vStr "company"), ("subscription", .vStr "Premium"),
         ("plan", .vInt 3), ("is_active", .vInt 0)]
        (.vStr "D1") 1700000000000 (2 ^ 51) (.vInt 9) (.vStr "t1")).2.status = 201 ∧
      r Col.subscription = .vStr "Basic" ∧ r Col.plan = .vInt 0 ∧
      r Col.is_active = .vInt 1 ∧ r Col.is_login_enable = .vInt 1 ∧
      r Col.is_disable = .vInt 1 ∧ r Col.dark_mode = .vInt 0 ∧
      r Col.created_by = .vInt 0 ∧ r Col.messenger_color = .vStr "#2180f3") :=
  ⟨⟨by decide, rfl⟩,
   c7_register_fixed_defaults demoDb
     [("first_name", .vStr "Bea"), ("last_name", .vStr "B"),
      ("email", .vStr "bea@x.com"), ("password", .vStr "secret1"),
      ("type", .vStr "company"), ("subscription", .vStr "Premium"),
      ("plan", .vInt 3), ("is_active", .vInt 0)]
     (.vStr "D1") 1700000000000 (2 ^ 51) (.vInt 9) (.vStr "t1") (by decide) rfl⟩

/-! ## Claim C9 -/

theorem setCol_same (r : Row) (c : Col) (v : Value) : setCol r c v c = v := by
  simp [setCol]

theorem setCol_other (r : Row) (c c2 : Col) (v : Value) (h : c2 ≠ c) :
    setCol r c v c2 = r c2 := by
  simp [setCol, h]

/-- C9: every successful login responds with the row snapshot loaded before
the `last_login` update — the serialized `last_login` is the previous value
(`NULL` on a first login) — while the stored row's `last_login` becomes the
`NOW()` of this login. -/
theorem c9_login_returns_pre_update_snapshot (verify : Value → Value → Bool)
    (db : Db) (nowT emailV pwV : Value) (u : Row)
    (hvalid : loginValid emailV pwV = true)
    (hfind : db.find? (fun r => decide (r Col.email = emailV)) = some u)
    (hact : truthy (u Col.is_active) = true)
    (hen : truthy (u Col.is_login_enable) = true)
    (hpw : verify pwV (u Col.password) = true) :
    (login verify db nowT emailV pwV).2.status = 200 ∧
    (login verify db nowT emailV pwV).2.user = some (userObjOf u) ∧
    bodyLookup (userObjOf u) "last_login" = some (u Col.last_login) ∧
    ∀ i r, db.get? i = some r → r Col.id = u Col.id →
      ∃ r2, (login verify db nowT emailV pwV).1.get? i = some r2 ∧
        r2 Col.last_login = nowT := by
  have hlogin : login verify db nowT emailV pwV =
      (db.map (fun r => if r Col.id = u Col.id then setCol r Col.last_login nowT else r),
       okUserResp 200 "Login successful" u) := by
    unfold login
    rw [if_neg (show ¬ ¬ loginValid emailV pwV = true by simp [hvalid])]
    rw [hfind]
    dsimp only
    rw [if_neg (show ¬ ¬ truthy (u Col.is_active) = true by simp [hact])]
    rw [if_neg (show ¬ ¬ truthy (u Col.is_login_enable) = true by simp [hen])]
    rw [if_neg (show ¬ ¬ verify pwV (u Col.password) = true by simp [hpw])]
  rw [hlogin]
  refine ⟨rfl, rfl, rfl, ?_⟩
  intro i r hr hid
  refine ⟨setCol r Col.last_login nowT, ?_, setCol_same r Col.last_login nowT⟩
  rw [List.get?_eq_getElem?, List.getElem?_map, ← List.get?_eq_getElem?, hr]
  simp [hid]

/-- C9 witness: Alice's first login returns `last_login = null` in the
response while the stored row now carries the login timestamp. -/
theorem c9_login_returns_pre_update_snapshot_witness :
    (loginValid (.vStr "a@b.com") (.vStr "hunter2") = true ∧
     demoDb.find? (fun r => decide (r Col.email = .vStr "a@b.com")) = some aliceRow ∧
     truthy (aliceRow Col.is_active) = true ∧
     truthy (aliceRow Col.is_login_enable) = true ∧
     demoVerify (.vStr "hunter2") (aliceRow Col.password) = true) ∧
    ((login demoVerify demoDb (.vStr "t1") (.vStr "a@b.com") (.vStr "hunter2")).2.status
        = 200 ∧
     (login demoVerify demoDb (.vStr "t1") (.vStr "a@b.com") (.vStr "hunter2")).2.user
        = some (userObjOf aliceRow) ∧
     bodyLookup (userObjOf aliceRow) "last_login" = some (aliceRow Col.last_login) ∧
     ∀ i r, demoDb.get? i = some r → r Col.id = aliceRow Col.id →
       ∃ r2, (login demoVerify demoDb (.vStr "t1") (.vStr "a@b.com")
                (.vStr "hunter2")).1.get? i = some r2 ∧
         r2 Col.last_login = .vStr "t1") :=
  ⟨⟨by decide, rfl, by decide, by decide, by decide⟩,
   c9_login_returns_pre_update_snapshot demoVerify demoDb (.vStr "t1")
     (.vStr "a@b.com") (.vStr "hunter2") aliceRow
     (by decide) rfl (by decide) (by decide) (by decide)⟩

/-! ## The dynamic UPDATE statement: counting lemmas -/

/-- The number of `'?'` placeholders contributed by the SET items. -/
def paramCount (o : List (String × Rhs)) : Nat :=
  (o.filter (fun p => decide (p.2 = Rhs.param))).length

theorem paramCount_cons (p : String × Rhs) (l : List (String × Rhs)) :
    paramCount (p :: l) = (if p.2 = Rhs.param then 1 else 0) + paramCount l := by
  unfold paramCount
  rw [List.filter_cons]
  by_cases h : p.2 = Rhs.param
  · simp [h, Nat.add_comm]
  · simp [h]

theorem paramCount_append (a b : List (String × Rhs)) :
    paramCount (a ++ b) = paramCount a + paramCount b := by
  unfold paramCount
  rw [List.filter_append, List.length_append]

theorem paramCount_le_length (o : List (String × Rhs)) : paramCount o ≤ o.length :=
  List.length_filter_le _ _

theorem objSet_not_mem {o : List (String × Rhs)} {k : String} (v : Rhs)
    (h : o.any (fun p => decide (p.1 = k)) = false) :
    objSet o k v = o ++ [(k, v)] := by
  simp only [objSet, h]
  rfl

theorem objSet_length_of_mem {o : List (String × Rhs)} {k : String} (v : Rhs)
    (h : o.any (fun p => decide (p.1 = k)) = true) :
    (objSet o k v).length = o.length := by
  simp [objSet, h]

theorem paramCount_objSet_now_le (o : List (String × Rhs)) (k : String) :
    paramCount (objSet o k .now) ≤ o.length := by
  unfold objSet
  split
  · calc paramCount _ ≤ (o.map (fun p => if p.1 = k then (p.1, Rhs.now) else p)).length :=
          paramCount_le_length _
      _ = o.length := List.length_map _ _
  · rw [paramCount_append]
    have h0 : paramCount [(k, Rhs.now)] = 0 := rfl
    rw [h0]
    simpa using paramCount_le_length o

theorem paramCount_map_flip_lt {o : List (String × Rhs)} {k : String}
    (h : o.any (fun p => decide (p.1 = k)) = true) :
    paramCount (o.map (fun p => if p.1 = k then (p.1, Rhs.now) else p)) < o.length := by
  induction o with
  | nil => simp at h
  | cons p rest ih =>
    rw [List.map_cons, paramCount_cons]
    by_cases hp : p.1 = k
    · rw [if_pos hp]
      rw [if_neg (show ¬ ((p.1, Rhs.now).2 = Rhs.param) by simp)]
      have hle := paramCount_le_length
        (rest.map (fun p => if p.1 = k then (p.1, Rhs.now) else p))
      rw [List.length_map] at hle
      simp only [List.length_cons]
      omega
    · rw [if_neg hp]
      have hrest : rest.any (fun p => decide (p.1 = k)) = true := by
        rcases List.any_eq_true.mp h with ⟨q, hq, hqk⟩
        rcases List.mem_cons.mp hq with hq1 | hq2
        · exact absurd (of_decide_eq_true (hq1 ▸ hqk)) hp
        · exact List.any_eq_true.mpr ⟨q, hq2, hqk⟩
      have hlt := ih hrest
      simp only [List.length_cons]
      by_cases hpp : p.2 = Rhs.param
      · rw [if_pos hpp]; omega
      · rw [if_neg hpp]; omega

theorem paramCount_objSet_now_lt {o : List (String × Rhs)} {k : String}
    (h : o.any (fun p => decide (p.1 = k)) = true) :
    paramCount (objSet o k .now) < o.length := by
  unfold objSet
  rw [if_pos h]
  exact paramCount_map_flip_lt h

/-! ## The body loop -/

/-- The body entries the loop of lines 353–358 keeps: value not
`undefined`, key not `password`. -/
def fbody (body : List (String × Value)) : List (String × Value) :=
  body.filter (fun p => decide (p.2 ≠ .vUndefined) && decide (p.1 ≠ "password"))

/-- With distinct body keys the loop appends one placeholder and one value
per kept entry, in body order. -/
theorem buildLoop_eq (body : List (String × Value)) (ups : List (String × Rhs))
    (vals : List Value) (hn : (body.map Prod.fst).Nodup)
    (hdisj : ∀ p ∈ ups, p.1 ∉ body.map Prod.fst) :
    buildLoop body ups vals =
      (ups ++ (fbody body).map (fun p => (p.1, Rhs.param)),
       vals ++ (fbody body).map Prod.snd) := by
  induction body generalizing ups vals with
  | nil => simp [buildLoop, fbody]
  | cons p rest ih =>
    rw [List.map_cons, List.nodup_cons] at hn
    obtain ⟨hp1, hn2⟩ := hn
    have hdisj2 : ∀ q ∈ ups, q.1 ∉ rest.map Prod.fst := by
      intro q hq hm
      exact hdisj q hq (by rw [List.map_cons]; exact List.mem_cons_of_mem _ hm)
    unfold buildLoop
    by_cases hc : (decide (p.2 ≠ Value.vUndefined) && decide (p.1 ≠ "password")) = true
    · rw [if_pos hc]
      have hany : ups.any (fun q => decide (q.1 = p.1)) = false := by
        rw [Bool.eq_false_iff]
        intro hany
        rcases List.any_eq_true.mp hany with ⟨q, hq, hqk⟩
        apply hdisj q hq
        rw [List.map_cons, of_decide_eq_true hqk]
        exact List.mem_cons_self _ _
      rw [objSet_not_mem _ hany]
      rw [ih (ups ++ [(p.1, Rhs.param)]) (vals ++ [p.2]) hn2 ?hd]
      case hd =>
        intro q hq
        rcases List.mem_append.mp hq with hq1 | hq2
        · exact hdisj2 q hq1
        · have hq3 : q = (p.1, Rhs.param) := by simpa using hq2
          rw [hq3]
          exact hp1
      have hf : fbody (p :: rest) = p :: fbody rest := by
        unfold fbody
        rw [List.filter_cons, if_pos hc]
      rw [hf, List.map_cons, List.map_cons, List.append_assoc, List.append_assoc]
      rfl
    · rw [if_neg hc]
      rw [ih ups vals hn2 hdisj2]
      have hf : fbody (p :: rest) = fbody rest := by
        unfold fbody
        rw [List.filter_cons, if_neg hc]
      rw [hf]

/-- The loop started from empty accumulators. -/
theorem buildLoop_nil_eq (body : List (String × Value))
    (hn : (body.map Prod.fst).Nodup) :
    buildLoop body [] [] =
      ((fbody body).map (fun p => (p.1, Rhs.param)), (fbody body).map Prod.snd) := by
  rw [buildLoop_eq body [] [] hn (by intro q hq; cases hq)]
  simp

/-! ## Binding lemmas -/

/-- Successful binding consumes exactly one value per placeholder. -/
theorem bindAssigns_count (ups : List (String × Rhs)) :
    ∀ {vals : List Value} {bs : List (Col × Option Value)} {rem : List Value},
      bindAssigns ups vals = .ok (bs, rem) →
      vals.length = paramCount ups + rem.length := by
  induction ups with
  | nil =>
    intro vals bs rem h
    cases h
    simp [paramCount]
  | cons a rest ih =>
    obtain ⟨k, rhs⟩ := a
    intro vals bs rem h
    cases hcol : colOfName k with
    | none => simp only [bindAssigns, hcol] at h; cases h
    | some c =>
      cases rhs with
      | now =>
        simp only [bindAssigns, hcol] at h
        cases hrec : bindAssigns rest vals with
        | error e => rw [hrec] at h; cases h
        | ok pr =>
          obtain ⟨bs2, rem2⟩ := pr
          rw [hrec] at h
          cases h
          rw [paramCount_cons]
          simp only [ih hrec]
          simp
      | param =>
        cases vals with
        | nil => simp only [bindAssigns, hcol] at h; cases h
        | cons v vs =>
          simp only [bindAssigns, hcol] at h
          cases hrec : bindAssigns rest vs with
          | error e => rw [hrec] at h; cases h
          | ok pr =>
            obtain ⟨bs2, rem2⟩ := pr
            rw [hrec] at h
            cases h
            rw [paramCount_cons]
            have := ih hrec
            simp only [List.length_cons, this]
            simp
            omega

/-- Binding an appended SET list decomposes. -/
theorem bindAssigns_append (a : List (String × Rhs)) :
    ∀ {b : List (String × Rhs)} {vals : List Value}
      {bs : List (Col × Option Value)} {rem : List Value},
      bindAssigns (a ++ b) vals = .ok (bs, rem) →
      ∃ bs1 rem1 bs2, bindAssigns a vals = .ok (bs1, rem1) ∧
        bindAssigns b rem1 = .ok (bs2, rem) ∧ bs = bs1 ++ bs2 := by
  induction a with
  | nil =>
    intro b vals bs rem h
    exact ⟨[], vals, bs, rfl, h, by simp⟩
  | cons p rest ih =>
    obtain ⟨k, rhs⟩ := p
    intro b vals bs rem h
    rw [List.cons_append] at h
    cases hcol : colOfName k with
    | none => simp only [bindAssigns, hcol] at h; cases h
    | some c =>
      cases rhs with
      | now =>
        simp only [bindAssigns, hcol] at h
        cases hrec : bindAssigns (rest ++ b) vals with
        | error e => rw [hrec] at h; cases h
        | ok pr =>
          obtain ⟨bs2, rem2⟩ := pr
          rw [hrec] at h
          cases h
          obtain ⟨c1, r1, c2, h1, h2, h3⟩ := ih hrec
          refine ⟨(c, none) :: c1, r1, c2, ?_, h2, by rw [h3, List.cons_append]⟩
          simp only [bindAssigns, hcol, h1]
      | param =>
        cases vals with
        | nil => simp only [bindAssigns, hcol] at h; cases h
        | cons v vs =>
          simp only [bindAssigns, hcol] at h
          cases hrec : bindAssigns (rest ++ b) vs with
          | error e => rw [hrec] at h; cases h
          | ok pr =>
            obtain ⟨bs2, rem2⟩ := pr
            rw [hrec] at h
            cases h
            obtain ⟨c1, r1, c2, h1, h2, h3⟩ := ih hrec
            refine ⟨(c, some v) :: c1, r1, c2, ?_, h2, by rw [h3, List.cons_append]⟩
            simp only [bindAssigns, hcol, h1]

/-- Binding a pure-placeholder SET list against its own values plus extras
leaves exactly the extras unconsumed. -/
theorem bindAssigns_params_rem (pairs : List (String × Value)) :
    ∀ {extra : List Value} {bs : List (Col × Option Value)} {rem : List Value},
      bindAssigns (pairs.map (fun p => (p.1, Rhs.param)))
        (pairs.map Prod.snd ++ extra) = .ok (bs, rem) → rem = extra := by
  induction pairs with
  | nil =>
    intro extra bs rem h
    cases h
    rfl
  | cons p ps ih =>
    intro extra bs rem h
    rw [List.map_cons, List.map_cons, List.cons_append] at h
    cases hcol : colOfName p.1 with
    | none => simp only [bindAssigns, hcol] at h; cases h
    | some c =>
      simp only [bindAssigns, hcol] at h
      cases hrec : bindAssigns (ps.map (fun p => (p.1, Rhs.param)))
          (ps.map Prod.snd ++ extra) with
      | error e => rw [hrec] at h; cases h
      | ok pr =>
        obtain ⟨bs2, rem2⟩ := pr
        rw [hrec] at h
        cases h
        exact ih hrec

/-- A value count different from placeholders-plus-one makes the execute
fail. -/
theorem executeUpdate_arity_error (db : Db) (ups : List (String × Rhs))
    (vals : List Value) (nowT : Value)
    (h : vals.length ≠ paramCount ups + 1) :
    ∀ db2, executeUpdate db ups vals nowT ≠ .ok db2 := by
  intro db2 hok
  unfold executeUpdate at hok
  split at hok
  · cases hok
  · cases hbind : bindAssigns ups vals with
    | error e => rw [hbind] at hok; cases hok
    | ok pr =>
      obtain ⟨bs, rem⟩ := pr
      rw [hbind] at hok
      have hcount := bindAssigns_count ups hbind
      cases rem with
      | nil => cases hok
      | cons r0 rtail =>
        cases rtail with
        | nil => simp only [List.length_cons, List.length_nil] at hcount; omega
        | cons r1 rtail2 => cases hok

/-! ## Applying bound SET items -/

theorem applyBinds_append (r : Row) (a b : List (Col × Option Value)) (nowT : Value) :
    applyBinds r (a ++ b) nowT = applyBinds (applyBinds r a nowT) b nowT := by
  unfold applyBinds
  rw [List.foldl_append]

/-- When the body already contributed a `plan` placeholder, the derived
plan value makes the value list one longer than the placeholders, and the
execute fails. -/
theorem arity_clash_plan (db : Db) (fb : List (String × Value)) (w1 w2 nowT : Value)
    (hplan : (fb.map (fun p => (p.1, Rhs.param))).any
        (fun p => decide (p.1 = "plan")) = true) :
    ∀ db2, executeUpdate db
        (objSet (objSet (fb.map (fun p => (p.1, Rhs.param))) "plan" .param)
          "updated_at" .now)
        ((fb.map Prod.snd ++ [w1]) ++ [w2]) nowT ≠ .ok db2 := by
  apply executeUpdate_arity_error
  have h1 : (objSet (fb.map (fun p => (p.1, Rhs.param))) "plan" Rhs.param).length
      = (fb.map (fun p => (p.1, Rhs.param))).length := objSet_length_of_mem _ hplan
  have h2 := paramCount_objSet_now_le
    (objSet (fb.map (fun p => (p.1, Rhs.param))) "plan" Rhs.param) "updated_at"
  have h3 : (fb.map (fun p => (p.1, Rhs.param))).length = fb.length :=
    List.length_map _ _
  have hv : ((fb.map Prod.snd ++ [w1]) ++ [w2]).length = fb.length + 2 := by simp
  omega

/-- When the body already contributed an `updated_at` placeholder, that
placeholder is overwritten by the literal `NOW()` while its value stays in
the list, and the execute fails. -/
theorem arity_clash_updated_at (db : Db) (fb : List (String × Value))
    (w1 w2 nowT : Value)
    (hplan : (fb.map (fun p => (p.1, Rhs.param))).any
        (fun p => decide (p.1 = "plan")) = false)
    (hua : (objSet (fb.map (fun p => (p.1, Rhs.param))) "plan" Rhs.param).any
        (fun p => decide (p.1 = "updated_at")) = true) :
    ∀ db2, executeUpdate db
        (objSet (objSet (fb.map (fun p => (p.1, Rhs.param))) "plan" .param)
          "updated_at" .now)
        ((fb.map Prod.snd ++ [w1]) ++ [w2]) nowT ≠ .ok db2 := by
  apply executeUpdate_arity_error
  have he : objSet (fb.map (fun p => (p.1, Rhs.param))) "plan" Rhs.param
      = fb.map (fun p => (p.1, Rhs.param)) ++ [("plan", Rhs.param)] :=
    objSet_not_mem _ hplan
  have hlt := paramCount_objSet_now_lt hua
  have hlen : (objSet (fb.map (fun p => (p.1, Rhs.param))) "plan" Rhs.param).length
      = fb.length + 1 := by
    rw [he]
    simp
  have hv : ((fb.map Prod.snd ++ [w1]) ++ [w2]).length = fb.length + 2 := by simp
  omega

/-- On an authenticated, validated request, update-profile is `updCore`. -/
theorem updateProfile_ok (verify : Value → Value → Bool) (db : Db)
    (header : Option String) (body : List (String × Value)) (nowT : Value)
    (u : Row) (hgate : authenticateUser verify db header = .ok u)
    (hvd : updValid body = true) :
    updateProfile verify db header body nowT = updCore db body nowT u := by
  unfold updateProfile
  rw [hgate]
  dsimp only
  rw [if_neg (show ¬ ¬ updValid body = true by simp [hvd])]

/-- On an authenticated request failing the validators, update-profile
responds 400 and leaves the table unchanged. -/
theorem updateProfile_invalid (verify : Value → Value → Bool) (db : Db)
    (header : Option String) (body : List (String × Value)) (nowT : Value)
    (u : Row) (hgate : authenticateUser verify db header = .ok u)
    (hvd : ¬ updValid body = true) :
    updateProfile verify db header body nowT = (db, errResp 400 "Validation errors") := by
  unfold updateProfile
  rw [hgate]
  dsimp only
  rw [if_pos (by simpa using hvd)]

/-- A present key of a duplicate-free body is what `req.body` lookup
returns. -/
theorem bodyLookup_mem {body : List (String × Value)} {k : String} {v : Value}
    (h : bodyLookup body k = some v) : (k, v) ∈ body := by
  unfold bodyLookup at h
  cases hf : body.find? (fun p => decide (p.1 = k)) with
  | none => rw [hf] at h; cases h
  | some p =>
    rw [hf] at h
    have h1 : p.2 = v := by simpa using h
    have h2b := List.find?_some hf
    have h2 : p.1 = k := by simpa using h2b
    have h3 : p ∈ body := List.mem_of_find?_eq_some hf
    have : p = (k, v) := Prod.ext_iff.mpr ⟨h2, h1⟩
    exact this ▸ h3

theorem applyBinds_not_mem (r : Row) (bs : List (Col × Option Value)) (nowT : Value)
    (c : Col) (h : c ∉ bs.map Prod.fst) : applyBinds r bs nowT c = r c := by
  induction bs generalizing r with
  | nil => rfl
  | cons p rest ih =>
    rw [List.map_cons] at h
    unfold applyBinds
    rw [List.foldl_cons]
    have hne : c ≠ p.1 := fun hc => h (hc ▸ List.mem_cons_self _ _)
    have := ih (setCol r p.1 (p.2.getD nowT)) (fun hc => h (List.mem_cons_of_mem _ hc))
    unfold applyBinds at this
    rw [this, setCol_other _ _ _ _ hne]

/-! ## Claim C6 -/

/-- C6: on every successful update-profile request (authenticated,
duplicate-free JSON body) whose body contains a subscription value `s` with
`planMap s = some m`, the stored row of the authenticated user has
`plan = m` after the update — the fixed mapping Basic=0, Silver=1,
Premium=2, Enterprise=3. -/
theorem c6_subscription_sets_mapped_plan (verify : Value → Value → Bool) (db : Db)
    (header : Option String) (body : List (String × Value)) (nowT : Value)
    (u : Row) (s : String) (m : Int)
    (hgate : authenticateUser verify db header = .ok u)
    (hnodup : (body.map Prod.fst).Nodup)
    (hsub : bodyLookup body "subscription" = some (.vStr s))
    (hmap : planMap s = some m)
    (hstatus : (updateProfile verify db header body nowT).2.status = 200) :
    ∀ i r, db.get? i = some r → r Col.id = u Col.id →
      ∃ r2, (updateProfile verify db header body nowT).1.get? i = some r2 ∧
        r2 Col.plan = .vInt m := by
  have hvd : updValid body = true := by
    by_contra hvd
    rw [updateProfile_invalid verify db header body nowT u hgate hvd] at hstatus
    simp [errResp] at hstatus
  rw [updateProfile_ok verify db header body nowT u hgate hvd] at hstatus ⊢
  unfold updCore at hstatus ⊢
  dsimp only at hstatus ⊢
  rw [buildLoop_nil_eq body hnodup] at hstatus ⊢
  dsimp only at hstatus ⊢
  have hlen : ¬ ((fbody body).map Prod.snd).length = 0 := by
    intro h0
    rw [if_pos h0] at hstatus
    simp [errResp] at hstatus
  rw [if_neg hlen] at hstatus ⊢
  have hsubv : (bodyLookup body "subscription").getD .vUndefined = .vStr s := by
    rw [hsub]
    rfl
  have hsn : s ≠ "" := by
    intro he
    rw [he] at hmap
    simp [planMap] at hmap
  have htr : truthy ((bodyLookup body "subscription").getD .vUndefined) = true := by
    rw [hsubv]
    simp [truthy, hsn]
  have hpv : planValueOf ((bodyLookup body "subscription").getD .vUndefined) = .vInt m := by
    rw [hsubv]
    simp [planValueOf, hmap]
  rw [if_pos htr, if_pos htr, hpv] at hstatus ⊢
  by_cases hplan : ((fbody body).map (fun p => (p.1, Rhs.param))).any
      (fun p => decide (p.1 = "plan")) = true
  · exfalso
    have hcl := arity_clash_plan db (fbody body) (.vInt m) (u Col.id) nowT hplan
    cases hex : executeUpdate db
        (objSet (objSet ((fbody body).map (fun p => (p.1, Rhs.param))) "plan" .param)
          "updated_at" .now)
        (((fbody body).map Prod.snd ++ [Value.vInt m]) ++ [u Col.id]) nowT with
    | error e => rw [hex] at hstatus; simp [errResp] at hstatus
    | ok db2 => exact hcl db2 hex
  · by_cases hua : (objSet ((fbody body).map (fun p => (p.1, Rhs.param))) "plan"
        Rhs.param).any (fun p => decide (p.1 = "updated_at")) = true
    · exfalso
      have hcl := arity_clash_updated_at db (fbody body) (.vInt m) (u Col.id) nowT
        (Bool.eq_false_iff.mpr hplan) hua
      cases hex : executeUpdate db
          (objSet (objSet ((fbody body).map (fun p => (p.1, Rhs.param))) "plan" .param)
            "updated_at" .now)
          (((fbody body).map Prod.snd ++ [Value.vInt m]) ++ [u Col.id]) nowT with
      | error e => rw [hex] at hstatus; simp [errResp] at hstatus
      | ok db2 => exact hcl db2 hex
    · have he1 : objSet ((fbody body).map (fun p => (p.1, Rhs.param))) "plan" Rhs.param
          = (fbody body).map (fun p => (p.1, Rhs.param)) ++ [("plan", Rhs.param)] :=
        objSet_not_mem _ (Bool.eq_false_iff.mpr hplan)
      have hua2 : ((fbody body).map (fun p => (p.1, Rhs.param))
          ++ [("plan", Rhs.param)]).any (fun p => decide (p.1 = "updated_at")) = false := by
        rw [← he1]
        exact Bool.eq_false_iff.mpr hua
      have he2 : objSet ((fbody body).map (fun p => (p.1, Rhs.param))
            ++ [("plan", Rhs.param)]) "updated_at" Rhs.now
          = ((fbody body).map (fun p => (p.1, Rhs.param)) ++ [("plan", Rhs.param)])
            ++ [("updated_at", Rhs.now)] :=
        objSet_not_mem _ hua2
      rw [he1, he2] at hstatus ⊢
      cases hex : executeUpdate db
          (((fbody body).map (fun p => (p.1, Rhs.param)) ++ [("plan", Rhs.param)])
            ++ [("updated_at", Rhs.now)])
          (((fbody body).map Prod.snd ++ [Value.vInt m]) ++ [u Col.id]) nowT with
      | error e => rw [hex] at hstatus; simp [errResp] at hstatus
      | ok db2 =>
        rw [hex] at hstatus
        unfold executeUpdate at hex
        split at hex
        · cases hex
        · rw [List.append_assoc ((fbody body).map (fun p => (p.1, Rhs.param))),
              List.append_assoc ((fbody body).map Prod.snd)] at hex
          cases hbind : bindAssigns
              ((fbody body).map (fun p => (p.1, Rhs.param))
                ++ ([("plan", Rhs.param)] ++ [("updated_at", Rhs.now)]))
              ((fbody body).map Prod.snd ++ ([Value.vInt m] ++ [u Col.id])) with
          | error e => rw [hbind] at hex; cases hex
          | ok pr =>
            obtain ⟨bs, rem⟩ := pr
            rw [hbind] at hex
            obtain ⟨bs1, rem1, bs2, hb1, hb2, hbs⟩ := bindAssigns_append _ hbind
            have hrem1 : rem1 = [Value.vInt m] ++ [u Col.id] :=
              bindAssigns_params_rem (fbody body) hb1
            rw [hrem1] at hb2
            have hb2e : bindAssigns ([("plan", Rhs.param)] ++ [("updated_at", Rhs.now)])
                ([Value.vInt m] ++ [u Col.id])
                = .ok ([(Col.plan, some (Value.vInt m)), (Col.updated_at, none)],
                       [u Col.id]) := rfl
            rw [hb2e] at hb2
            cases hb2
            have hdb2 : db2 = db.map (fun r =>
                if r Col.id = u Col.id then applyBinds r bs nowT else r) := by
              cases hex
              rfl
            subst hdb2
            intro i r hri hid
            dsimp only
            refine ⟨applyBinds r bs nowT, ?_, ?_⟩
            · split <;>
              · dsimp only
                rw [List.get?_eq_getElem?, List.getElem?_map, ← List.get?_eq_getElem?,
                  hri]
                simp [hid]
            · rw [hbs, applyBinds_append]
              show (setCol (setCol (applyBinds r bs1 nowT) Col.plan (.vInt m))
                  Col.updated_at nowT) Col.plan = .vInt m
              rw [setCol_other _ _ _ _ (by decide : Col.plan ≠ Col.updated_at)]
              exact setCol_same _ _ _

/-- C6 witness: Alice updates her subscription to Silver; her stored row
ends with plan 1. -/
theorem c6_subscription_sets_mapped_plan_witness :
    (authenticateUser demoVerify demoDb (some demoHeader) = .ok aliceRow ∧
     (([("subscription", Value.vStr "Silver")].map Prod.fst).Nodup) ∧
     bodyLookup [("subscription", .vStr "Silver")] "subscription"
        = some (.vStr "Silver") ∧
     planMap "Silver" = some 1 ∧
     (updateProfile demoVerify demoDb (some demoHeader)
        [("subscription", .vStr "Silver")] (.vStr "t1")).2.status = 200) ∧
    (∀ i r, demoDb.get? i = some r → r Col.id = aliceRow Col.id →
      ∃ r2, (updateProfile demoVerify demoDb (some demoHeader)
          [("subscription", .vStr "Silver")] (.vStr "t1")).1.get? i = some r2 ∧
        r2 Col.plan = .vInt 1) :=
  ⟨⟨rfl, by decide, by decide, by decide, by decide⟩,
   c6_subscription_sets_mapped_plan demoVerify demoDb (some demoHeader)
     [("subscription", .vStr "Silver")] (.vStr "t1") aliceRow "Silver" 1
     rfl (by decide) (by decide) (by decide) (by decide)⟩

/-! ## Claim C10 -/

/-- C10 counterexample: with body `{plan: 7, subscription: "Silver"}` the
request does not store the mapped plan 1 — the statement has one more value
than placeholders, the execute fails, the handler returns 500 and the
stored plan is still 0. -/
theorem c10_plan_override_counterexample :
    (updateProfile demoVerify demoDb (some demoHeader)
      [("plan", .vInt 7), ("subscription", .vStr "Silver")] (.vStr "t1")).2.status
        = 500 ∧
    ((updateProfile demoVerify demoDb (some demoHeader)
      [("plan", .vInt 7), ("subscription", .vStr "Silver")] (.vStr "t1")).1.headD
        aliceRow) Col.plan = .vInt 0 ∧
    ¬ ((updateProfile demoVerify demoDb (some demoHeader)
      [("plan", .vInt 7), ("subscription", .vStr "Silver")] (.vStr "t1")).1.headD
        aliceRow) Col.plan = .vInt 1 :=
  ⟨by decide, by decide, by decide⟩

/-- C10 amended: when an authenticated, validated, duplicate-free body
contains both a `plan` entry and a subscription in the map, the `updates`
object's `plan` entry is reassigned in place but the values array keeps
both the body-supplied plan and the appended mapped plan, so the statement
has one more value than placeholders; the execute fails, the handler
returns 500, and the table is unchanged (the stored plan is not set from
the mapping). -/
theorem c10_plan_and_subscription_500 (verify : Value → Value → Bool) (db : Db)
    (header : Option String) (body : List (String × Value)) (nowT : Value)
    (u : Row) (s : String) (m : Int) (pv : Value)
    (hgate : authenticateUser verify db header = .ok u)
    (hnodup : (body.map Prod.fst).Nodup)
    (hvd : updValid body = true)
    (hsub : bodyLookup body "subscription" = some (.vStr s))
    (hmap : planMap s = some m)
    (hpl : bodyLookup body "plan" = some pv)
    (hpvu : pv ≠ .vUndefined) :
    (updateProfile verify db header body nowT).2.status = 500 ∧
    (updateProfile verify db header body nowT).1 = db := by
  rw [updateProfile_ok verify db header body nowT u hgate hvd]
  unfold updCore
  dsimp only
  rw [buildLoop_nil_eq body hnodup]
  dsimp only
  have hmem : ("plan", pv) ∈ fbody body := by
    unfold fbody
    rw [List.mem_filter]
    exact ⟨bodyLookup_mem hpl, by simp [hpvu]⟩
  have hplan : ((fbody body).map (fun p => (p.1, Rhs.param))).any
      (fun p => decide (p.1 = "plan")) = true := by
    rw [List.any_eq_true]
    exact ⟨("plan", Rhs.param), List.mem_map_of_mem _ hmem, by simp⟩
  have hlen : ¬ ((fbody body).map Prod.snd).length = 0 := by
    intro h0
    rw [List.length_map, List.length_eq_zero] at h0
    rw [h0] at hmem
    cases hmem
  rw [if_neg hlen]
  have hsubv : (bodyLookup body "subscription").getD .vUndefined = .vStr s := by
    rw [hsub]
    rfl
  have hsn : s ≠ "" := by
    intro he
    rw [he] at hmap
    simp [planMap] at hmap
  have htr : truthy ((bodyLookup body "subscription").getD .vUndefined) = true := by
    rw [hsubv]
    simp [truthy, hsn]
  rw [if_pos htr, if_pos htr]
  have hcl := arity_clash_plan db (fbody body)
    (planValueOf ((bodyLookup body "subscription").getD .vUndefined)) (u Col.id) nowT hplan
  cases hex : executeUpdate db
      (objSet (objSet ((fbody body).map (fun p => (p.1, Rhs.param))) "plan" .param)
        "updated_at" .now)
      (((fbody body).map Prod.snd
          ++ [planValueOf ((bodyLookup body "subscription").getD .vUndefined)])
        ++ [u Col.id]) nowT with
  | error e => exact ⟨rfl, rfl⟩
  | ok db2 => exact absurd hex (hcl db2)

/-- C10 amended, witness: Alice sends both `plan: 7` and
`subscription: "Silver"`; the request fails with 500 and the table is
unchanged. -/
theorem c10_plan_and_subscription_500_witness :
    (authenticateUser demoVerify demoDb (some demoHeader) = .ok aliceRow ∧
     (([("plan", Value.vInt 7), ("subscription", Value.vStr "Silver")].map
        Prod.fst).Nodup) ∧
     updValid [("plan", .vInt 7), ("subscription", .vStr "Silver")] = true ∧
     bodyLookup [("plan", .vInt 7), ("subscription", .vStr "Silver")] "subscription"
        = some (.vStr "Silver") ∧
     planMap "Silver" = some 1 ∧
     bodyLookup [("plan", .vInt 7), ("subscription", .vStr "Silver")] "plan"
        = some (.vInt 7) ∧
     (Value.vInt 7) ≠ .vUndefined) ∧
    ((updateProfile demoVerify demoDb (some demoHeader)
        [("plan", .vInt 7), ("subscription", .vStr "Silver")] (.vStr "t1")).2.status
          = 500 ∧
     (updateProfile demoVerify demoDb (some demoHeader)
        [("plan", .vInt 7), ("subscription", .vStr "Silver")] (.vStr "t1")).1
          = demoDb) :=
  ⟨⟨rfl, by decide, by decide, by decide, by decide, by decide, by decide⟩,
   c10_plan_and_subscription_500 demoVerify demoDb (some demoHeader)
     [("plan", .vInt 7), ("subscription", .vStr "Silver")] (.vStr "t1") aliceRow
     "Silver" 1 (.vInt 7)
     rfl (by decide) (by decide) (by decide) (by decide) (by decide) (by decide)⟩

/-! ## Claim C1 -/

/-- C1 counterexample: the key `is_active` is outside the allow-list of
mutable fields, yet an authenticated update with body `{is_active: 0}`
succeeds (200) and flips the stored `is_active` column from 1 to 0 — the
update statement is not restricted to the allow-list and the column is not
left unchanged. -/
theorem c1_allowlist_counterexample :
    aliceRow Col.is_active = .vInt 1 ∧
    (updateProfile demoVerify demoDb (some demoHeader)
        [("is_active", .vInt 0)] (.vStr "t1")).2.status = 200 ∧
    ((updateProfile demoVerify demoDb (some demoHeader)
        [("is_active", .vInt 0)] (.vStr "t1")).1.headD aliceRow) Col.is_active
      = .vInt 0 ∧
    ¬ ((updateProfile demoVerify demoDb (some demoHeader)
        [("is_active", .vInt 0)] (.vStr "t1")).1.headD aliceRow) Col.is_active
      = .vInt 1 :=
  ⟨by decide, by decide, by decide, by decide⟩

/-- C1 amended: the update statement is built from every present body key
except `password`, with no allow-list: an authenticated update-profile
request whose body is `{is_active: v}` (any defined value, any user row
with a defined id) succeeds with 200 and sets the authenticated user's
stored `is_active` column to `v`. -/
theorem c1_update_uses_arbitrary_keys (verify : Value → Value → Bool) (db : Db)
    (header : Option String) (nowT v : Value) (u : Row)
    (hgate : authenticateUser verify db header = .ok u)
    (hv : v ≠ .vUndefined)
    (hid : u Col.id ≠ .vUndefined) :
    (updateProfile verify db header [("is_active", v)] nowT).2.status = 200 ∧
    ∀ i r, db.get? i = some r → r Col.id = u Col.id →
      ∃ r2, (updateProfile verify db header [("is_active", v)] nowT).1.get? i
          = some r2 ∧ r2 Col.is_active = v := by
  have hvd : updValid [("is_active", v)] = true := rfl
  rw [updateProfile_ok verify db header [("is_active", v)] nowT u hgate hvd]
  unfold updCore
  dsimp only
  have hbl : buildLoop [("is_active", v)] [] [] = ([("is_active", Rhs.param)], [v]) := by
    unfold buildLoop
    rw [if_pos (by simp [hv])]
    rfl
  rw [hbl]
  dsimp only
  rw [if_neg (by simp : ¬ ([v] : List Value).length = 0)]
  have htr : truthy ((bodyLookup [("is_active", v)] "subscription").getD .vUndefined)
      = false := rfl
  rw [if_neg (by simp [htr]), if_neg (by simp [htr])]
  have hou : objSet [("is_active", Rhs.param)] "updated_at" Rhs.now
      = [("is_active", Rhs.param), ("updated_at", Rhs.now)] := rfl
  rw [hou]
  have hexec : executeUpdate db [("is_active", Rhs.param), ("updated_at", Rhs.now)]
      ([v] ++ [u Col.id]) nowT
      = .ok (db.map (fun r => if r Col.id = u Col.id
          then applyBinds r [(Col.is_active, some v), (Col.updated_at, none)] nowT
          else r)) := by
    unfold executeUpdate
    rw [if_neg (show ¬ (([v] ++ [u Col.id]).any fun w => decide (w = Value.vUndefined))
        = true by simp [hv, hid])]
    rfl
  rw [hexec]
  dsimp only
  constructor
  · split <;> rfl
  · intro i r hri hid2
    refine ⟨applyBinds r [(Col.is_active, some v), (Col.updated_at, none)] nowT,
      ?_, ?_⟩
    · split <;>
      · dsimp only
        rw [List.get?_eq_getElem?, List.getElem?_map, ← List.get?_eq_getElem?, hri]
        simp [hid2]
    · show (setCol (setCol r Col.is_active v) Col.updated_at nowT) Col.is_active = v
      rw [setCol_other _ _ _ _ (by decide : Col.is_active ≠ Col.updated_at)]
      exact setCol_same _ _ _

/-- C1 amended, witness: Alice deactivates her own account through the
update-profile body. -/
theorem c1_update_uses_arbitrary_keys_witness :
    (authenticateUser demoVerify demoDb (some demoHeader) = .ok aliceRow ∧
     (Value.vInt 0) ≠ .vUndefined ∧ aliceRow Col.id ≠ .vUndefined) ∧
    ((updateProfile demoVerify demoDb (some demoHeader)
        [("is_active", .vInt 0)] (.vStr "t1")).2.status = 200 ∧
     ∀ i r, demoDb.get? i = some r → r Col.id = aliceRow Col.id →
       ∃ r2, (updateProfile demoVerify demoDb (some demoHeader)
           [("is_active", .vInt 0)] (.vStr "t1")).1.get? i = some r2 ∧
         r2 Col.is_active = .vInt 0) :=
  ⟨⟨rfl, by decide, by decide⟩,
   c1_update_uses_arbitrary_keys demoVerify demoDb (some demoHeader) (.vStr "t1")
     (.vInt 0) aliceRow rfl (by decide) (by decide)⟩

end Server













